import Mathlib

set_option maxRecDepth 4000

/-!
Shallow embedding of `src/mcp-server-creation-tool/mcp-server-creation.py`.

The whole program is the single procedure `create_mcp_server` (lines 10-187):
a linear sequence of filesystem operations and external-process invocations.
We model the persistent state (directories, written files, current working
directory, whether the `uv` binary is installed) as a `World`, and the
per-invocation behaviour of the outside world (the host platform, whether
each external command or filesystem call succeeds) as an `Env`.  The
procedure itself is translated step by step into `create_mcp_server` below.
-/

/-- Result of one `subprocess.run` call: success, a non-zero exit status
(Python `subprocess.CalledProcessError` when `check=True`), or a missing
binary (Python `FileNotFoundError`). -/
inductive RunResult
  | ok
  | calledProcessError
  | fileNotFound
deriving DecidableEq

/-- Python exceptions that the modelled code can raise past its own
handlers.  `typeError` models the `TypeError` raised by the expression
`bytes | CompletedProcess` on source line 51; `osError` carries the
message of a filesystem error (`mkdir`, `open`). -/
inductive PyExc
  | typeError
  | fileNotFoundError
  | osError (msg : String)
deriving DecidableEq

/-- How one invocation of the tool ends: a normal Python `return` of a
string (the tool reports both success and failure this way), or an
exception escaping the function uncaught. -/
inductive Outcome
  | ret (s : String)
  | raised (e : PyExc)
deriving DecidableEq

/-- External commands the procedure can spawn, in the order attempted. -/
inductive ExtCall
  | uvVersion
  | curl
  | sh
  | uvInit
  | uvVenv
  | uvAdd
deriving DecidableEq

/-- Persistent state the procedure reads and mutates: the set of existing
directories, the files written (newest first), the current working
directory of the process, and whether `uv --version` succeeds. -/
structure World where
  dirs : List String
  files : List (String × String)
  cwd : String
  uvOk : Bool
deriving DecidableEq

/-- Ambient, per-invocation behaviour of the outside world: the home
directory used by `os.path.expanduser`, `sys.platform`, and the outcome
of each fallible external action the code performs. -/
structure Env where
  home : String
  platform : String
  makedirsErr : Option String
  curlRes : RunResult
  shRes : RunResult
  mkdirErr : Option String
  initOk : Bool
  venvOk : Bool
  addOk : Bool
  writeMainErr : Option String
  writeReadmeErr : Option String
deriving DecidableEq

/-- The full observable result of one invocation: how it ended, the final
persistent state, and the external commands spawned (in order). -/
structure RunOut where
  outcome : Outcome
  world : World
  calls : List ExtCall
deriving DecidableEq

/-- String prefix test on the underlying character lists (Python
`str.startswith`). -/
def startsWith (p s : String) : Bool := p.data.isPrefixOf s.data

/-- `os.path.expanduser` (line 25): expand a leading `~` to the home
directory; other strings pass through unchanged. -/
def expanduser (home p : String) : String :=
  if p = "~" then home
  else if startsWith "~/" p then home ++ p.drop 1
  else p

/-- `pathlib.Path a / b` for a relative component `b` (line 59), and the
path at which a file named `b` is created in directory `a`. -/
def pathJoin (a b : String) : String := a ++ "/" ++ b

/-- Resolution of a possibly relative path `p` against the current working
directory, as done by `os.chdir` / `os.path.abspath` / `Path.absolute`. -/
def absJoin (cwd p : String) : String :=
  if startsWith "/" p then p else cwd ++ "/" ++ p

/-- Failure message of line 33. -/
def mkdirsFailMsg (loc e : String) : String :=
  "❌ Failed to create directory " ++ loc ++ ": " ++ e

/-- Failure message of line 54. -/
def manualInstallMsg : String :=
  "❌ Automatic installation of uv is only supported on MacOS and Linux. Please install uv manually."

/-- Failure message of line 56. -/
def installFailMsg : String :=
  "❌ Failed to install uv package manager. Please install it manually."

/-- Failure message of line 61. -/
def existsMsg (pdir : String) : String :=
  "❌ Directory " ++ pdir ++ " already exists. Please choose a different name or location."

/-- Failure message of line 75. -/
def initFailMsg : String := "❌ Failed to initialize uv project"

/-- Failure message of line 83. -/
def venvFailMsg : String := "❌ Failed to create virtual environment"

/-- Failure message of line 91. -/
def addFailMsg : String := "❌ Failed to install dependencies"

/-- Log entry of line 31. -/
def logCreatedDir (loc : String) : String := "✅ Created directory: " ++ loc

/-- Log entry of line 41. -/
def logUvInstalled : String := "✅ uv package manager is installed"

/-- Log entry of line 64. -/
def logCreatedProject (pdir : String) : String :=
  "✅ Created project directory: " ++ pdir

/-- Log entry of line 72. -/
def logInit : String := "✅ Initialized uv project"

/-- Log entry of line 80. -/
def logVenv : String := "✅ Created virtual environment"

/-- Log entry of line 88. -/
def logDeps : String := "✅ Installed required dependencies"

/-- Log entry of line 109. -/
def logMain : String := "✅ Created main.py with basic MCP server implementation"

/-- Log entry of line 166. -/
def logReadme : String := "✅ Created README.md with usage instructions"

/-- The part of the `main.py` f-string template (lines 94-105) before the
interpolated `server_description`. -/
def mainPre : String := "from mcp.server.fastmcp import FastMCP\n\nmcp = FastMCP(\""

/-- The part of the `main.py` template after the interpolated
`server_description`.  The `\x7b\x7dinput_text\x7b\x7d` of the Python source renders to
literal braces around `input_text` in the generated file. -/
def mainSuf : String :=
  "\")\n\n@mcp.tool()\ndef example_tool(input_text: str) -> str:\n    \"\"\"An example tool that echoes back the input text\"\"\"\n    return f\"You said: \x7binput_text\x7d\"\n\nif __name__ == \"__main__\":\n    mcp.run(transport=\"stdio\")\n"

/-- Content of the generated entry-point file `main.py` (lines 94-105):
`server_description` is spliced verbatim between the fixed template
halves, with no escaping or sanitisation. -/
def main_py_content (server_description : String) : String :=
  mainPre ++ server_description ++ mainSuf

/-- Semantics of the one example capability declared in the generated
entry-point template (the generated `example_tool`, template lines
99-101): it echoes the input into a fixed response string. -/
def example_tool (input_text : String) : String :=
  "You said: " ++ input_text

/-- README template (lines 112-162), chunk before `project_name`. -/
def rm1 : String := "# "

/-- README template, chunk between `project_name` and
`server_description`. -/
def rm2 : String := "\n\n"

/-- README template, chunk between `server_description` and the second
occurrence of `project_name` (inside the Claude Desktop JSON snippet). -/
def rm3 : String :=
  "\n\n## Running the Server\n\n1. Activate the virtual environment:\n   ```bash\n   # On macOS/Linux:\n   source .venv/bin/activate\n   \n   # On Windows:\n   .venv\\Scripts\\activate\n   ```\n\n2. Start the MCP server:\n   ```bash\n   uv run main.py\n   ```\n\n## Connecting to Claude Desktop\n\n1. Edit `~/Library/Application Support/Claude/claude_desktop_config.json`:\n\n```json\n\x7b\n    \"mcpServers\": \x7b\n        \""

/-- README template, chunk between the second `project_name` and the
first interpolated absolute path (still inside the Claude snippet). -/
def rm4 : String :=
  "\": \x7b\n            \"command\": \"uv\",\n            \"args\": [\n                \"--directory\",\n                \""

/-- README template, chunk between the first and second interpolated
absolute paths; contains the Cursor AI IDE section header. -/
def rm5 : String :=
  "\",\n                \"run\",\n                \"main.py\"\n            ]\n        \x7d\n    \x7d\n\x7d\n```\n\n2. Restart Claude Desktop\n\n## Connecting to Cursor AI IDE\n\n1. Open Cursor > Preferences > Cursor settings\n2. Go to MCP\n3. Click \"Add new global mcp server\"\n4. Configure with the following:\n   - Command: uv\n   - Arguments: --directory "

/-- README template, chunk after the second interpolated absolute path. -/
def rm6 : String := " run main.py\n"

/-- Content of the generated `README.md` (lines 112-162): the template
interpolates `project_name` (twice), `server_description`, and
`os.path.abspath(".")` (twice; the process is inside the project
directory at that point, so it is the absolute project path). -/
def readme_content (project_name server_description abspath : String) : String :=
  rm1 ++ project_name ++ rm2 ++ server_description ++ rm3 ++ project_name
    ++ rm4 ++ abspath ++ rm5 ++ abspath ++ rm6

/-- Success-report template (lines 172-185), chunk before
`project_name`. -/
def rmA : String := "\nMCP Server created successfully!\n\nProject: "

/-- Success-report template, chunk before `project_dir.absolute()`. -/
def rmB : String := "\nLocation: "

/-- Success-report template, chunk before `project_dir`. -/
def rmC : String := "\n\nTo run your server:\n1. cd "

/-- Success-report template, chunk between `project_dir` and the joined
log; shows the virtual-environment activation command in both OS-family
variants as fixed text. -/
def rmD : String :=
  "\n2. source .venv/bin/activate  # On Windows: .venv\\Scripts\\activate\n3. uv run main.py\n\nSetup log:\n"

/-- Success-report template, chunk after the joined log. -/
def rmE : String := "\n"

/-- The `"".join([f"- \x7blog\x7d\n" for log in result_log])` of line 184. -/
def logLines (log : List String) : String :=
  String.join (log.map (fun l => "- " ++ l ++ "\n"))

/-- The success report of lines 172-185, as a function of the values
interpolated into the f-string. -/
def result_message (project_name pdirAbs pdir : String) (log : List String) : String :=
  rmA ++ project_name ++ rmB ++ pdirAbs ++ rmC ++ pdir ++ rmD ++ logLines log ++ rmE

/-- Lines 44-56, reached when the `uv --version` probe failed: on macOS or
Linux the code runs `curl` and `sh`; its `except` clause catches only
`subprocess.CalledProcessError`, so a missing binary raises
`FileNotFoundError` uncaught, and when both commands succeed the
expression `run(curl).stdout | run(sh)` raises `TypeError` uncaught
(`bytes` has no `|` operator), so the flow never completes successfully.
On any other platform it returns the manual-installation message without
spawning anything.  The log entries appended in this flow are discarded
on every one of its exits. -/
def installUv (env : Env) (w : World) (calls : List ExtCall) : RunOut :=
  if (env.platform == "darwin") || startsWith "linux" env.platform then
    match env.curlRes with
    | .fileNotFound => ⟨.raised .fileNotFoundError, w, calls ++ [.curl]⟩
    | .calledProcessError => ⟨.ret installFailMsg, w, calls ++ [.curl]⟩
    | .ok =>
      match env.shRes with
      | .fileNotFound => ⟨.raised .fileNotFoundError, w, calls ++ [.curl, .sh]⟩
      | .calledProcessError => ⟨.ret installFailMsg, w, calls ++ [.curl, .sh]⟩
      | .ok => ⟨.raised .typeError, w, calls ++ [.curl, .sh]⟩
  else
    ⟨.ret manualInstallMsg, w, calls⟩

/-- Lines 58-187, reached once `uv` is known to be available: existence
check and creation of the project directory, `chdir` into it, the three
`uv` invocations, the two file writes, `chdir` back, and the success
report.  `original_dir` is the directory saved on line 36.  The
`mkdir` of line 63 and the two `open(...).write` calls of lines 107 and
164 are outside any `try`, so their failures raise uncaught (and the two
write failures propagate without restoring the working directory). -/
def scaffold (env : Env) (w : World) (original_dir project_name server_description loc : String)
    (log : List String) (calls : List ExtCall) : RunOut :=
  let project_dir := pathJoin loc project_name
  if project_dir ∈ w.dirs then
    ⟨.ret (existsMsg project_dir), w, calls⟩
  else
    match env.mkdirErr with
    | some e => ⟨.raised (.osError e), w, calls⟩
    | none =>
      let w1 : World := { w with dirs := project_dir :: w.dirs }
      let wd : World := { w1 with cwd := absJoin w.cwd project_dir }
      if env.initOk then
        if env.venvOk then
          if env.addOk then
            match env.writeMainErr with
            | some e => ⟨.raised (.osError e), wd, calls ++ [.uvInit, .uvVenv, .uvAdd]⟩
            | none =>
              let wm : World :=
                { wd with files := (pathJoin wd.cwd "main.py", main_py_content server_description) :: wd.files }
              match env.writeReadmeErr with
              | some e => ⟨.raised (.osError e), wm, calls ++ [.uvInit, .uvVenv, .uvAdd]⟩
              | none =>
                let wr : World :=
                  { wm with files := (pathJoin wm.cwd "README.md", readme_content project_name server_description wm.cwd) :: wm.files }
                ⟨.ret (result_message project_name (absJoin original_dir project_dir) project_dir
                    (log ++ [logCreatedProject project_dir, logInit, logVenv, logDeps, logMain, logReadme])),
                  { wr with cwd := original_dir }, calls ++ [.uvInit, .uvVenv, .uvAdd]⟩
          else
            ⟨.ret addFailMsg, { wd with cwd := original_dir }, calls ++ [.uvInit, .uvVenv, .uvAdd]⟩
        else
          ⟨.ret venvFailMsg, { wd with cwd := original_dir }, calls ++ [.uvInit, .uvVenv]⟩
      else
        ⟨.ret initFailMsg, { wd with cwd := original_dir }, calls ++ [.uvInit]⟩

/-- Lines 38-56: the `uv --version` probe.  If it succeeds (the binary is
installed) a log entry is appended and scaffolding proceeds; otherwise
the auto-install flow runs, and no path through that flow ever reaches
the scaffolding steps. -/
def checkUv (env : Env) (w : World) (original_dir project_name server_description loc : String)
    (log : List String) : RunOut :=
  if w.uvOk then
    scaffold env w original_dir project_name server_description loc
      (log ++ [logUvInstalled]) [.uvVersion]
  else
    installUv env w [.uvVersion]

/-- The tool `create_mcp_server` (lines 10-187).  Expands the location,
creates it if absent (failure caught, lines 29-33), saves the original
working directory (line 36), then probes for `uv` and continues as
above.  In the Python source `server_description` defaults to the string
`"Custom MCP Server"`; the default is irrelevant to the claims and is
not modelled. -/
def create_mcp_server (env : Env) (w : World)
    (project_name project_location server_description : String) : RunOut :=
  let loc := expanduser env.home project_location
  if loc ∈ w.dirs then
    checkUv env w w.cwd project_name server_description loc []
  else
    match env.makedirsErr with
    | some e => ⟨.ret (mkdirsFailMsg loc e), w, []⟩
    | none =>
      checkUv env { w with dirs := loc :: w.dirs } w.cwd project_name server_description loc
        [logCreatedDir loc]

/-- A returned string reports failure exactly when it starts with the
failure marker character (every failure message of the source does, and
the success report starts with a newline). -/
def isFail (s : String) : Bool := s.data.head? == some '❌'

/-- Substring containment, on the underlying character lists. -/
def strContains (s sub : String) : Prop := sub.data <:+: s.data

instance strContainsDecidable (s sub : String) : Decidable (strContains s sub) :=
  inferInstanceAs (Decidable (sub.data <:+: s.data))

/-- Number of (possibly overlapping) occurrences of `sub` in a character
list. -/
def countOccs (sub : List Char) : List Char → Nat
  | [] => 0
  | c :: rest => (if sub.isPrefixOf (c :: rest) then 1 else 0) + countOccs sub rest

/-! ### Basic lemmas about the message constants and string containment -/

theorem isFail_mkdirsFailMsg (loc e : String) : isFail (mkdirsFailMsg loc e) = true := rfl

theorem isFail_manualInstallMsg : isFail manualInstallMsg = true := rfl

theorem isFail_installFailMsg : isFail installFailMsg = true := rfl

theorem isFail_existsMsg (p : String) : isFail (existsMsg p) = true := rfl

theorem isFail_initFailMsg : isFail initFailMsg = true := rfl

theorem isFail_venvFailMsg : isFail venvFailMsg = true := rfl

theorem isFail_addFailMsg : isFail addFailMsg = true := rfl

theorem isFail_result_message (pn a pd : String) (log : List String) :
    isFail (result_message pn a pd log) = false := rfl

theorem strContains_glue (x z : String) {m sub : String} (h : strContains m sub) :
    strContains (x ++ m ++ z) sub := by
  obtain ⟨u, v, huv⟩ := h
  refine ⟨x.data ++ u, v ++ z.data, ?_⟩
  simp only [String.data_append, ← huv, List.append_assoc]

theorem strContains_self_middle (x z : String) (sub : String) :
    strContains (x ++ sub ++ z) sub :=
  ⟨x.data, z.data, by simp only [String.data_append, List.append_assoc]⟩

/-! ### Case analysis of `scaffold` (source lines 58-187) -/

theorem scaffold_ret_cwd (env : Env) (w : World) (od pn d loc : String)
    (log : List String) (c : List ExtCall) (s : String)
    (h : (scaffold env w od pn d loc log c).outcome = .ret s) :
    (scaffold env w od pn d loc log c).world.cwd = w.cwd ∨
      (scaffold env w od pn d loc log c).world.cwd = od := by
  by_cases h1 : pathJoin loc pn ∈ w.dirs
  · left; simp [scaffold, h1]
  · cases h2 : env.mkdirErr with
    | some e => simp [scaffold, h1, h2] at h
    | none =>
      cases h3 : env.initOk with
      | false => right; simp [scaffold, h1, h2, h3]
      | true =>
        cases h4 : env.venvOk with
        | false => right; simp [scaffold, h1, h2, h3, h4]
        | true =>
          cases h5 : env.addOk with
          | false => right; simp [scaffold, h1, h2, h3, h4, h5]
          | true =>
            cases h6 : env.writeMainErr with
            | some e => simp [scaffold, h1, h2, h3, h4, h5, h6] at h
            | none =>
              cases h7 : env.writeReadmeErr with
              | some e => simp [scaffold, h1, h2, h3, h4, h5, h6, h7] at h
              | none => right; simp [scaffold, h1, h2, h3, h4, h5, h6, h7]

theorem scaffold_outcome_cases (env : Env) (w : World) (od pn d loc : String)
    (log : List String) (c : List ExtCall) (s : String)
    (h : (scaffold env w od pn d loc log c).outcome = .ret s) :
    s = existsMsg (pathJoin loc pn) ∨ s = initFailMsg ∨ s = venvFailMsg ∨ s = addFailMsg ∨
      s = result_message pn (absJoin od (pathJoin loc pn)) (pathJoin loc pn)
        (log ++ [logCreatedProject (pathJoin loc pn), logInit, logVenv, logDeps, logMain, logReadme]) := by
  by_cases h1 : pathJoin loc pn ∈ w.dirs
  · simp [scaffold, h1] at h; exact Or.inl h.symm
  · cases h2 : env.mkdirErr with
    | some e => simp [scaffold, h1, h2] at h
    | none =>
      cases h3 : env.initOk with
      | false => simp [scaffold, h1, h2, h3] at h; exact Or.inr (Or.inl h.symm)
      | true =>
        cases h4 : env.venvOk with
        | false => simp [scaffold, h1, h2, h3, h4] at h; exact Or.inr (Or.inr (Or.inl h.symm))
        | true =>
          cases h5 : env.addOk with
          | false =>
            simp [scaffold, h1, h2, h3, h4, h5] at h
            exact Or.inr (Or.inr (Or.inr (Or.inl h.symm)))
          | true =>
            cases h6 : env.writeMainErr with
            | some e => simp [scaffold, h1, h2, h3, h4, h5, h6] at h
            | none =>
              cases h7 : env.writeReadmeErr with
              | some e => simp [scaffold, h1, h2, h3, h4, h5, h6, h7] at h
              | none =>
                simp [scaffold, h1, h2, h3, h4, h5, h6, h7] at h
                exact Or.inr (Or.inr (Or.inr (Or.inr h.symm)))

theorem scaffold_success (env : Env) (w : World) (od pn d loc : String)
    (log : List String) (c : List ExtCall) (s : String)
    (h : (scaffold env w od pn d loc log c).outcome = .ret s)
    (hs : isFail s = false) :
    pathJoin loc pn ∉ w.dirs
    ∧ s = result_message pn (absJoin od (pathJoin loc pn)) (pathJoin loc pn)
        (log ++ [logCreatedProject (pathJoin loc pn), logInit, logVenv, logDeps, logMain, logReadme])
    ∧ (scaffold env w od pn d loc log c).world =
        { dirs := pathJoin loc pn :: w.dirs,
          files :=
            (pathJoin (absJoin w.cwd (pathJoin loc pn)) "README.md",
              readme_content pn d (absJoin w.cwd (pathJoin loc pn))) ::
            (pathJoin (absJoin w.cwd (pathJoin loc pn)) "main.py", main_py_content d) :: w.files,
          cwd := od, uvOk := w.uvOk } := by
  by_cases h1 : pathJoin loc pn ∈ w.dirs
  · simp [scaffold, h1] at h
    rw [← h, isFail_existsMsg] at hs; exact absurd hs (by simp)
  · cases h2 : env.mkdirErr with
    | some e => simp [scaffold, h1, h2] at h
    | none =>
      cases h3 : env.initOk with
      | false =>
        simp [scaffold, h1, h2, h3] at h
        rw [← h, isFail_initFailMsg] at hs; exact absurd hs (by simp)
      | true =>
        cases h4 : env.venvOk with
        | false =>
          simp [scaffold, h1, h2, h3, h4] at h
          rw [← h, isFail_venvFailMsg] at hs; exact absurd hs (by simp)
        | true =>
          cases h5 : env.addOk with
          | false =>
            simp [scaffold, h1, h2, h3, h4, h5] at h
            rw [← h, isFail_addFailMsg] at hs; exact absurd hs (by simp)
          | true =>
            cases h6 : env.writeMainErr with
            | some e => simp [scaffold, h1, h2, h3, h4, h5, h6] at h
            | none =>
              cases h7 : env.writeReadmeErr with
              | some e => simp [scaffold, h1, h2, h3, h4, h5, h6, h7] at h
              | none =>
                refine ⟨h1, ?_, ?_⟩
                · simp [scaffold, h1, h2, h3, h4, h5, h6, h7] at h; exact h.symm
                · simp [scaffold, h1, h2, h3, h4, h5, h6, h7]

/-! ### Case analysis of the auto-install flow (source lines 44-56) -/

theorem installUv_world (env : Env) (w : World) (c : List ExtCall) :
    (installUv env w c).world = w := by
  cases hp : (env.platform == "darwin") || startsWith "linux" env.platform with
  | false => simp [installUv, hp]
  | true =>
    cases hc : env.curlRes <;> cases hsh : env.shRes <;> simp [installUv, hp, hc, hsh]

theorem installUv_ret (env : Env) (w : World) (c : List ExtCall) (s : String)
    (h : (installUv env w c).outcome = .ret s) :
    s = installFailMsg ∨ s = manualInstallMsg := by
  cases hp : (env.platform == "darwin") || startsWith "linux" env.platform with
  | false => simp [installUv, hp] at h; exact Or.inr h.symm
  | true =>
    cases hc : env.curlRes <;> cases hsh : env.shRes <;>
      simp [installUv, hp, hc, hsh] at h <;> exact Or.inl h.symm

/-! ### Inversion of a successful invocation of `create_mcp_server` -/

theorem create_success_inversion (env : Env) (w : World) (pn pl d s : String)
    (h : (create_mcp_server env w pn pl d).outcome = .ret s)
    (hs : isFail s = false) :
    w.uvOk = true
    ∧ pathJoin (expanduser env.home pl) pn ∉ w.dirs
    ∧ s = result_message pn (absJoin w.cwd (pathJoin (expanduser env.home pl) pn))
        (pathJoin (expanduser env.home pl) pn)
        ((if expanduser env.home pl ∈ w.dirs then [logUvInstalled]
          else [logCreatedDir (expanduser env.home pl), logUvInstalled])
          ++ [logCreatedProject (pathJoin (expanduser env.home pl) pn),
              logInit, logVenv, logDeps, logMain, logReadme])
    ∧ (create_mcp_server env w pn pl d).world =
        { dirs := pathJoin (expanduser env.home pl) pn ::
            (if expanduser env.home pl ∈ w.dirs then w.dirs
             else expanduser env.home pl :: w.dirs),
          files :=
            (pathJoin (absJoin w.cwd (pathJoin (expanduser env.home pl) pn)) "README.md",
              readme_content pn d (absJoin w.cwd (pathJoin (expanduser env.home pl) pn))) ::
            (pathJoin (absJoin w.cwd (pathJoin (expanduser env.home pl) pn)) "main.py",
              main_py_content d) :: w.files,
          cwd := w.cwd, uvOk := w.uvOk } := by
  by_cases hm : expanduser env.home pl ∈ w.dirs
  · cases huv : w.uvOk with
    | false =>
      simp [create_mcp_server, hm, checkUv, huv] at h
      rcases installUv_ret env w [.uvVersion] s h with h' | h' <;>
        rw [h'] at hs <;> simp [isFail_installFailMsg, isFail_manualInstallMsg] at hs
    | true =>
      simp only [create_mcp_server, hm, if_true, checkUv, huv] at h
      have h' : (scaffold env w w.cwd pn d (expanduser env.home pl)
          ([] ++ [logUvInstalled]) [.uvVersion]).outcome = .ret s := by
        simpa [checkUv, huv, hm, create_mcp_server] using h
      obtain ⟨hn, hmsg, hw⟩ :=
        scaffold_success env w w.cwd pn d (expanduser env.home pl)
          ([] ++ [logUvInstalled]) [.uvVersion] s h' hs
      refine ⟨?_, hn, ?_, ?_⟩
      · first
        | exact huv
        | rfl
      · simpa [hm] using hmsg
      · have : (create_mcp_server env w pn pl d).world =
            (scaffold env w w.cwd pn d (expanduser env.home pl)
              ([] ++ [logUvInstalled]) [.uvVersion]).world := by
          simp [create_mcp_server, hm, checkUv, huv]
        rw [this, hw]; simp [hm, huv]
  · cases hmk : env.makedirsErr with
    | some e =>
      simp [create_mcp_server, hm, hmk] at h
      rw [← h, isFail_mkdirsFailMsg] at hs; exact absurd hs (by simp)
    | none =>
      cases huv : w.uvOk with
      | false =>
        simp [create_mcp_server, hm, hmk, checkUv, huv] at h
        rcases installUv_ret _ _ _ s h with h' | h' <;>
          rw [h'] at hs <;> simp [isFail_installFailMsg, isFail_manualInstallMsg] at hs
      | true =>
        have h' : (scaffold env { w with dirs := expanduser env.home pl :: w.dirs } w.cwd pn d
            (expanduser env.home pl)
            ([logCreatedDir (expanduser env.home pl)] ++ [logUvInstalled])
            [.uvVersion]).outcome = .ret s := by
          simpa [create_mcp_server, hm, hmk, checkUv, huv] using h
        obtain ⟨hn, hmsg, hw⟩ :=
          scaffold_success env { w with dirs := expanduser env.home pl :: w.dirs } w.cwd pn d
            (expanduser env.home pl)
            ([logCreatedDir (expanduser env.home pl)] ++ [logUvInstalled]) [.uvVersion] s h' hs
        refine ⟨?_, ?_, ?_, ?_⟩
        · first
          | exact huv
          | rfl
        · intro hmem; exact hn (List.mem_cons_of_mem _ hmem)
        · simpa [hm] using hmsg
        · have : (create_mcp_server env w pn pl d).world =
              (scaffold env { w with dirs := expanduser env.home pl :: w.dirs } w.cwd pn d
                (expanduser env.home pl)
                ([logCreatedDir (expanduser env.home pl)] ++ [logUvInstalled])
                [.uvVersion]).world := by
            simp [create_mcp_server, hm, hmk, checkUv, huv]
          rw [this, hw]; simp [hm, huv]

/-! ### Helper decompositions of the templates -/

theorem result_message_decomp (pn a pd : String) (log : List String) :
    result_message pn a pd log =
      (rmA ++ pn ++ rmB ++ a ++ rmC ++ pd) ++ rmD ++ (logLines log ++ rmE) := by
  simp only [result_message, String.append_assoc]

/-! ### Claim theorems -/

/-- C4 (confirmed): on every exit path of `create_mcp_server` that returns
an outcome to the caller — success report or failure message alike — the
working directory of the final state equals the working directory before
the call.  (The paths that raise an uncaught exception return nothing and
are outside the claim, which speaks of success and failure outcomes.) -/
theorem claim_c4_cwd_restored (env : Env) (w : World) (pn pl d s : String)
    (h : (create_mcp_server env w pn pl d).outcome = .ret s) :
    (create_mcp_server env w pn pl d).world.cwd = w.cwd := by
  by_cases hm : expanduser env.home pl ∈ w.dirs
  · cases huv : w.uvOk with
    | false =>
      have heq : create_mcp_server env w pn pl d = installUv env w [.uvVersion] := by
        simp [create_mcp_server, hm, checkUv, huv]
      rw [heq, installUv_world]
    | true =>
      have heq : create_mcp_server env w pn pl d =
          scaffold env w w.cwd pn d (expanduser env.home pl)
            ([] ++ [logUvInstalled]) [.uvVersion] := by
        simp [create_mcp_server, hm, checkUv, huv]
      rw [heq] at h ⊢
      rcases scaffold_ret_cwd _ _ _ _ _ _ _ _ _ h with h' | h' <;> exact h'
  · cases hmk : env.makedirsErr with
    | some e =>
      have heq : create_mcp_server env w pn pl d =
          ⟨.ret (mkdirsFailMsg (expanduser env.home pl) e), w, []⟩ := by
        simp [create_mcp_server, hm, hmk]
      rw [heq]
    | none =>
      cases huv : w.uvOk with
      | false =>
        have heq : create_mcp_server env w pn pl d =
            installUv env { w with dirs := expanduser env.home pl :: w.dirs } [.uvVersion] := by
          simp [create_mcp_server, hm, hmk, checkUv, huv]
        rw [heq, installUv_world]
      | true =>
        have heq : create_mcp_server env w pn pl d =
            scaffold env { w with dirs := expanduser env.home pl :: w.dirs } w.cwd pn d
              (expanduser env.home pl)
              ([logCreatedDir (expanduser env.home pl)] ++ [logUvInstalled]) [.uvVersion] := by
          simp [create_mcp_server, hm, hmk, checkUv, huv]
        rw [heq] at h ⊢
        rcases scaffold_ret_cwd _ _ _ _ _ _ _ _ _ h with h' | h' <;> exact h'

/-- C4 witness: a concrete successful run restores the working
directory. -/
theorem claim_c4_cwd_restored_witness :
    (create_mcp_server ⟨"/h", "linux", none, .ok, .ok, none, true, true, true, none, none⟩
      ⟨["/tmp"], [], "/cw", true⟩ "p" "/tmp" "d").world.cwd =
      (⟨["/tmp"], [], "/cw", true⟩ : World).cwd :=
  claim_c4_cwd_restored _ _ "p" "/tmp" "d"
    (result_message "p" (absJoin "/cw" (pathJoin "/tmp" "p")) (pathJoin "/tmp" "p")
      [logUvInstalled, logCreatedProject (pathJoin "/tmp" "p"),
       logInit, logVenv, logDeps, logMain, logReadme]) (by decide)

/-- C9 (confirmed): whenever `create_mcp_server` returns a success
outcome, the returned report is exactly the fixed template with the
accumulated log entries concatenated in the order they were appended
(one `- entry` line each, never reordered, verbatim), and the
virtual-environment activation command appears in both OS-family
variants in the fixed text; the statement quantifies over every `Env`,
so this holds regardless of the host platform. -/
theorem claim_c9_report (env : Env) (w : World) (pn pl d s : String)
    (h : (create_mcp_server env w pn pl d).outcome = .ret s)
    (hs : isFail s = false) :
    s = result_message pn (absJoin w.cwd (pathJoin (expanduser env.home pl) pn))
        (pathJoin (expanduser env.home pl) pn)
        ((if expanduser env.home pl ∈ w.dirs then [logUvInstalled]
          else [logCreatedDir (expanduser env.home pl), logUvInstalled])
          ++ [logCreatedProject (pathJoin (expanduser env.home pl) pn),
              logInit, logVenv, logDeps, logMain, logReadme])
    ∧ strContains s "source .venv/bin/activate"
    ∧ strContains s ".venv\\Scripts\\activate" := by
  obtain ⟨-, -, hmsg, -⟩ := create_success_inversion env w pn pl d s h hs
  refine ⟨hmsg, ?_, ?_⟩
  · rw [hmsg, result_message_decomp]
    exact strContains_glue _ _ (by decide)
  · rw [hmsg, result_message_decomp]
    exact strContains_glue _ _ (by decide)

/-- C9 witness: the report of a concrete successful run is the template
applied to the in-order log and contains both activation variants. -/
theorem claim_c9_report_witness :
    result_message "p" (absJoin "/cw" (pathJoin "/tmp" "p")) (pathJoin "/tmp" "p")
        [logUvInstalled, logCreatedProject (pathJoin "/tmp" "p"),
         logInit, logVenv, logDeps, logMain, logReadme] =
      result_message "p" (absJoin "/cw" (pathJoin "/tmp" "p")) (pathJoin "/tmp" "p")
        ((if ("/tmp" : String) ∈ ["/tmp"] then [logUvInstalled]
          else [logCreatedDir "/tmp", logUvInstalled])
          ++ [logCreatedProject (pathJoin "/tmp" "p"),
              logInit, logVenv, logDeps, logMain, logReadme])
    ∧ strContains (result_message "p" (absJoin "/cw" (pathJoin "/tmp" "p")) (pathJoin "/tmp" "p")
        [logUvInstalled, logCreatedProject (pathJoin "/tmp" "p"),
         logInit, logVenv, logDeps, logMain, logReadme]) "source .venv/bin/activate"
    ∧ strContains (result_message "p" (absJoin "/cw" (pathJoin "/tmp" "p")) (pathJoin "/tmp" "p")
        [logUvInstalled, logCreatedProject (pathJoin "/tmp" "p"),
         logInit, logVenv, logDeps, logMain, logReadme]) ".venv\\Scripts\\activate" := by
  exact claim_c9_report ⟨"/h", "linux", none, .ok, .ok, none, true, true, true, none, none⟩
    ⟨["/tmp"], [], "/cw", true⟩ "p" "/tmp" "d"
    (result_message "p" (absJoin "/cw" (pathJoin "/tmp" "p")) (pathJoin "/tmp" "p")
      [logUvInstalled, logCreatedProject (pathJoin "/tmp" "p"),
       logInit, logVenv, logDeps, logMain, logReadme]) (by decide) (by decide)

/-- C10 (confirmed): for every `server_description`, the entry-point file
written by a successful run has content equal to the fixed prefix
`mainPre` (which ends inside a double-quoted string literal,
`... FastMCP("`), then `server_description` spliced in verbatim, then the
fixed suffix `mainSuf` — no character is escaped or sanitised, so a
description containing a double quote or a newline lands as-is inside
the string literal of the generated program. -/
theorem claim_c10_verbatim_description (env : Env) (w : World) (pn pl d s : String)
    (h : (create_mcp_server env w pn pl d).outcome = .ret s)
    (hs : isFail s = false) :
    (create_mcp_server env w pn pl d).world.files =
      (pathJoin (absJoin w.cwd (pathJoin (expanduser env.home pl) pn)) "README.md",
        readme_content pn d (absJoin w.cwd (pathJoin (expanduser env.home pl) pn))) ::
      (pathJoin (absJoin w.cwd (pathJoin (expanduser env.home pl) pn)) "main.py",
        mainPre ++ d ++ mainSuf) :: w.files := by
  obtain ⟨-, -, -, hw⟩ := create_success_inversion env w pn pl d s h hs
  rw [hw]; simp [main_py_content]

/-- C10 witness: a concrete successful run with a description containing
a double quote and a newline writes exactly the spliced template. -/
theorem claim_c10_verbatim_description_witness :
    (create_mcp_server ⟨"/h", "linux", none, .ok, .ok, none, true, true, true, none, none⟩
        ⟨["/tmp"], [], "/cw", true⟩ "p" "/tmp" "a\"b\nc").world.files =
      (pathJoin (absJoin "/cw" (pathJoin "/tmp" "p")) "README.md",
        readme_content "p" "a\"b\nc" (absJoin "/cw" (pathJoin "/tmp" "p"))) ::
      (pathJoin (absJoin "/cw" (pathJoin "/tmp" "p")) "main.py",
        mainPre ++ "a\"b\nc" ++ mainSuf) :: [] :=
  claim_c10_verbatim_description _ _ "p" "/tmp" "a\"b\nc"
    (result_message "p" (absJoin "/cw" (pathJoin "/tmp" "p")) (pathJoin "/tmp" "p")
      [logUvInstalled, logCreatedProject (pathJoin "/tmp" "p"),
       logInit, logVenv, logDeps, logMain, logReadme]) (by decide) (by decide)

/-- C7 (confirmed): the generated entry-point file embeds
`server_description` verbatim into the fixed template; the fixed part of
the template declares exactly one capability (one `@mcp.tool()`
decoration), and that capability echoes its input — for every input
text, its documented response is `You said: ` followed by the input, so
the response contains the input (in particular, for input `hello` the
response `You said: hello` contains `hello`). -/
theorem claim_c7_example_capability (d t : String) :
    main_py_content d = mainPre ++ d ++ mainSuf
    ∧ countOccs ("@mcp.tool()").data (mainPre.data ++ mainSuf.data) = 1
    ∧ example_tool t = "You said: " ++ t
    ∧ strContains (example_tool t) t := by
  refine ⟨rfl, by decide, rfl, ?_⟩
  exact ⟨("You said: ").data, [], by simp [example_tool, String.data_append]⟩

/-- C8 (confirmed): for every request, the generated README equals a
string in which the absolute resolved project path occurs once inside
the Claude Desktop snippet (the part between the two occurrences starts
after the Claude Desktop heading and contains the Cursor AI IDE
heading) and once more in the Cursor configuration after it. -/
theorem claim_c8_readme_paths (n d p : String) :
    ∃ a b c, readme_content n d p = a ++ p ++ b ++ p ++ c
      ∧ strContains a "## Connecting to Claude Desktop"
      ∧ strContains b "## Connecting to Cursor AI IDE" := by
  refine ⟨rm1 ++ n ++ rm2 ++ d ++ rm3 ++ n ++ rm4, rm5, rm6, ?_, ?_, by decide⟩
  · simp only [readme_content, String.append_assoc]
  · have hd : rm1 ++ n ++ rm2 ++ d ++ rm3 ++ n ++ rm4 =
        (rm1 ++ n ++ rm2 ++ d) ++ rm3 ++ (n ++ rm4) := by
      simp only [String.append_assoc]
    rw [hd]
    exact strContains_glue _ _ (by decide)

/-- C5 (confirmed): if an invocation of `create_mcp_server` returns a
success outcome, then invoking it again with identical arguments on the
resulting state (under any ambient environment with the same home
directory) returns the directory-already-exists Failure, leaves the
state unchanged, and spawns only the version probe — so the second call
always fails the existence check and an existing project can never be
re-scaffolded. -/
theorem claim_c5_success_then_failure (env env' : Env) (w : World) (pn pl d s : String)
    (hh : env'.home = env.home)
    (h : (create_mcp_server env w pn pl d).outcome = .ret s)
    (hs : isFail s = false) :
    create_mcp_server env' (create_mcp_server env w pn pl d).world pn pl d =
      ⟨.ret (existsMsg (pathJoin (expanduser env.home pl) pn)),
        (create_mcp_server env w pn pl d).world, [.uvVersion]⟩ := by
  obtain ⟨huv, hn, -, hw⟩ := create_success_inversion env w pn pl d s h hs
  rw [hw]
  have hmem : expanduser env.home pl ∈
      (pathJoin (expanduser env.home pl) pn ::
        (if expanduser env.home pl ∈ w.dirs then w.dirs
         else expanduser env.home pl :: w.dirs)) := by
    by_cases hm : expanduser env.home pl ∈ w.dirs
    · simp [hm]
    · simp [hm]
  simp [create_mcp_server, hh, hmem, checkUv, huv, scaffold]

/-- C5 witness: a concrete success followed by a rerun with the same
arguments gives the existence-check Failure and no state change. -/
theorem claim_c5_success_then_failure_witness :
    create_mcp_server ⟨"/h", "linux", none, .ok, .ok, none, true, true, true, none, none⟩
        (create_mcp_server ⟨"/h", "linux", none, .ok, .ok, none, true, true, true, none, none⟩
          ⟨["/tmp"], [], "/cw", true⟩ "p" "/tmp" "d").world "p" "/tmp" "d" =
      ⟨.ret (existsMsg (pathJoin "/tmp" "p")),
        (create_mcp_server ⟨"/h", "linux", none, .ok, .ok, none, true, true, true, none, none⟩
          ⟨["/tmp"], [], "/cw", true⟩ "p" "/tmp" "d").world, [.uvVersion]⟩ :=
  claim_c5_success_then_failure _ _ _ "p" "/tmp" "d" rfl
    (s := result_message "p" (absJoin "/cw" (pathJoin "/tmp" "p")) (pathJoin "/tmp" "p")
      [logUvInstalled, logCreatedProject (pathJoin "/tmp" "p"),
       logInit, logVenv, logDeps, logMain, logReadme]) (by decide) (by decide)

/-- C6 (confirmed): when the `uv` probe fails on a platform that is
neither `darwin` nor a `linux` family member, and the run reaches the
probe (the project-location step does not itself fail), the result is
the Failure message asking for manual installation, and the only
external command spawned is the version probe — no installer download
(`curl`) and no shell (`sh`) is attempted. -/
theorem claim_c6_unsupported_platform (env : Env) (w : World) (pn pl d : String)
    (huv : w.uvOk = false)
    (hp : ((env.platform == "darwin") || startsWith "linux" env.platform) = false)
    (hloc : expanduser env.home pl ∈ w.dirs ∨ env.makedirsErr = none) :
    (create_mcp_server env w pn pl d).outcome = .ret manualInstallMsg
    ∧ (create_mcp_server env w pn pl d).calls = [.uvVersion] := by
  by_cases hm : expanduser env.home pl ∈ w.dirs
  · constructor <;> simp [create_mcp_server, hm, checkUv, huv, installUv, hp]
  · rcases hloc with hm' | hmk
    · exact absurd hm' hm
    · constructor <;> simp [create_mcp_server, hm, hmk, checkUv, huv, installUv, hp]

/-- C6 witness: a concrete run on an unsupported platform with `uv`
absent returns the manual-installation Failure and spawns only the
probe. -/
theorem claim_c6_unsupported_platform_witness :
    (create_mcp_server ⟨"/h", "win32", none, .ok, .ok, none, true, true, true, none, none⟩
      ⟨["/tmp"], [], "/cw", false⟩ "p" "/tmp" "d").outcome = .ret manualInstallMsg
    ∧ (create_mcp_server ⟨"/h", "win32", none, .ok, .ok, none, true, true, true, none, none⟩
      ⟨["/tmp"], [], "/cw", false⟩ "p" "/tmp" "d").calls = [.uvVersion] :=
  claim_c6_unsupported_platform _ _ "p" "/tmp" "d" rfl (by decide) (Or.inl (by decide))

/-- C1 counterexample: a concrete request whose target project directory
`/tmp/p` already exists at invocation time, on a Linux host where the
`uv` probe fails and both `curl` and `sh` exit successfully.  The call
does not return a Failure outcome at all: the broken install expression
of source line 51 (`run(curl).stdout | run(sh)`) raises an uncaught
`TypeError` before the existence check is ever reached, contradicting
the claim that such a request always returns Failure. -/
theorem claim_c1_counterexample :
    pathJoin "/tmp" "p" ∈ (["/tmp/p", "/tmp"] : List String)
    ∧ (create_mcp_server ⟨"/h", "linux", none, .ok, .ok, none, true, true, true, none, none⟩
        ⟨["/tmp/p", "/tmp"], [], "/cw", false⟩ "p" "/tmp" "d").outcome = .raised .typeError :=
  ⟨by decide, by decide⟩

/-- C1 (corrected): when the target project directory already exists at
invocation time (with its parent, as on any real filesystem), the call
mutates nothing — the final state equals the initial state exactly, so
no directory is created and no file is written; every string it can
return is a Failure message; and whenever the `uv` probe succeeds the
outcome is precisely the directory-already-exists Failure.  (When the
probe fails, the call may instead end in an uncaught fault inside the
install flow — see the counterexample — but still without mutation.) -/
theorem claim_c1_no_mutation (env : Env) (w : World) (pn pl d : String)
    (h1 : pathJoin (expanduser env.home pl) pn ∈ w.dirs)
    (h2 : expanduser env.home pl ∈ w.dirs) :
    (create_mcp_server env w pn pl d).world = w
    ∧ (∀ s, (create_mcp_server env w pn pl d).outcome = .ret s → isFail s = true)
    ∧ (w.uvOk = true →
        (create_mcp_server env w pn pl d).outcome =
          .ret (existsMsg (pathJoin (expanduser env.home pl) pn))) := by
  cases huv : w.uvOk with
  | true =>
    have heq : create_mcp_server env w pn pl d =
        ⟨.ret (existsMsg (pathJoin (expanduser env.home pl) pn)), w, [.uvVersion]⟩ := by
      simp [create_mcp_server, h2, checkUv, huv, scaffold, h1]
    rw [heq]
    refine ⟨rfl, ?_, fun _ => rfl⟩
    intro s hsr
    have : existsMsg (pathJoin (expanduser env.home pl) pn) = s := by
      simpa using hsr
    rw [← this, isFail_existsMsg]
  | false =>
    have heq : create_mcp_server env w pn pl d = installUv env w [.uvVersion] := by
      simp [create_mcp_server, h2, checkUv, huv]
    rw [heq]
    refine ⟨installUv_world env w _, ?_, ?_⟩
    · intro s hsr
      rcases installUv_ret env w _ s hsr with h' | h' <;> rw [h']
      · rw [isFail_installFailMsg]
      · rw [isFail_manualInstallMsg]
    · intro hc; simp [huv] at hc

/-- C1 witness: with the target directory existing and `uv` available, a
concrete call returns the existence Failure and changes nothing. -/
theorem claim_c1_no_mutation_witness :
    (create_mcp_server ⟨"/h", "linux", none, .ok, .ok, none, true, true, true, none, none⟩
        ⟨["/tmp/p", "/tmp"], [], "/cw", true⟩ "p" "/tmp" "d").world =
      ⟨["/tmp/p", "/tmp"], [], "/cw", true⟩
    ∧ (create_mcp_server ⟨"/h", "linux", none, .ok, .ok, none, true, true, true, none, none⟩
        ⟨["/tmp/p", "/tmp"], [], "/cw", true⟩ "p" "/tmp" "d").outcome =
      .ret (existsMsg (pathJoin "/tmp" "p")) :=
  ⟨(claim_c1_no_mutation _ _ "p" "/tmp" "d" (by decide) (by decide)).1,
   (claim_c1_no_mutation _ _ "p" "/tmp" "d" (by decide) (by decide)).2.2 rfl⟩

/-- When the project-directory `mkdir` and both file writes succeed,
every path through `scaffold` ends in a normal `return`. -/
theorem scaffold_total (env : Env) (w : World) (od pn d loc : String)
    (log : List String) (c : List ExtCall)
    (hmkE : env.mkdirErr = none)
    (hwm : env.writeMainErr = none) (hwr : env.writeReadmeErr = none) :
    ∃ s, (scaffold env w od pn d loc log c).outcome = .ret s := by
  by_cases h1 : pathJoin loc pn ∈ w.dirs
  · exact ⟨existsMsg (pathJoin loc pn), by simp [scaffold, h1]⟩
  · cases h3 : env.initOk with
    | false => exact ⟨initFailMsg, by simp [scaffold, h1, hmkE, h3]⟩
    | true =>
      cases h4 : env.venvOk with
      | false => exact ⟨venvFailMsg, by simp [scaffold, h1, hmkE, h3, h4]⟩
      | true =>
        cases h5 : env.addOk with
        | false => exact ⟨addFailMsg, by simp [scaffold, h1, hmkE, h3, h4, h5]⟩
        | true =>
          exact ⟨result_message pn (absJoin od (pathJoin loc pn)) (pathJoin loc pn)
              (log ++ [logCreatedProject (pathJoin loc pn), logInit, logVenv,
                logDeps, logMain, logReadme]),
            by simp [scaffold, h1, hmkE, h3, h4, h5, hwm, hwr]⟩

/-- C2 counterexample: a concrete request on which the project-directory
creation (`project_dir.mkdir(parents=True)`, source line 63) fails.
That call is outside every `try` block, so the failure is not converted
into a Failure outcome: it escapes the function as an uncaught fault,
contradicting the claim that every failing step — explicitly including
project-directory creation and the file writes — is caught and
converted into a terminal Failure string. -/
theorem claim_c2_counterexample :
    (create_mcp_server
        ⟨"/h", "linux", none, .ok, .ok, some "Permission denied", true, true, true, none, none⟩
        ⟨["/tmp"], [], "/cw", true⟩ "p" "/tmp" "d").outcome =
      .raised (.osError "Permission denied") := by decide

/-- C2 (corrected): the conversion of failures into Failure strings
covers only part of the steps.  Failures of `os.makedirs` on the project
location and of the three `uv` sub-invocations (`init`, `venv`, `add`)
are caught, so whenever the `uv` probe succeeds, the project-directory
`mkdir` succeeds and both file writes succeed, the call always ends in a
normal returned outcome whatever else fails.  But a failing
project-directory `mkdir` or file write — and a `FileNotFoundError` or
`TypeError` inside the install flow, whose handler only catches
`CalledProcessError` — escapes as an uncaught fault (see the
counterexample). -/
theorem claim_c2_caught_failures (env : Env) (w : World) (pn pl d : String)
    (huv : w.uvOk = true) (hmkE : env.mkdirErr = none)
    (hwm : env.writeMainErr = none) (hwr : env.writeReadmeErr = none) :
    ∃ s, (create_mcp_server env w pn pl d).outcome = .ret s := by
  by_cases hm : expanduser env.home pl ∈ w.dirs
  · obtain ⟨s, hs⟩ := scaffold_total env w w.cwd pn d (expanduser env.home pl)
      ([] ++ [logUvInstalled]) [.uvVersion] hmkE hwm hwr
    refine ⟨s, ?_⟩
    have heq : create_mcp_server env w pn pl d =
        scaffold env w w.cwd pn d (expanduser env.home pl)
          ([] ++ [logUvInstalled]) [.uvVersion] := by
      simp [create_mcp_server, hm, checkUv, huv]
    rw [heq]; exact hs
  · cases hmk : env.makedirsErr with
    | some e =>
      exact ⟨mkdirsFailMsg (expanduser env.home pl) e, by simp [create_mcp_server, hm, hmk]⟩
    | none =>
      obtain ⟨s, hs⟩ := scaffold_total env { w with dirs := expanduser env.home pl :: w.dirs }
        w.cwd pn d (expanduser env.home pl)
        ([logCreatedDir (expanduser env.home pl)] ++ [logUvInstalled]) [.uvVersion] hmkE hwm hwr
      refine ⟨s, ?_⟩
      have heq : create_mcp_server env w pn pl d =
          scaffold env { w with dirs := expanduser env.home pl :: w.dirs } w.cwd pn d
            (expanduser env.home pl)
            ([logCreatedDir (expanduser env.home pl)] ++ [logUvInstalled]) [.uvVersion] := by
        simp [create_mcp_server, hm, hmk, checkUv, huv]
      rw [heq]; exact hs

/-- C2 witness: under the amended hypotheses a concrete call (here one
whose `uv add` step fails) still ends in a returned outcome. -/
theorem claim_c2_caught_failures_witness :
    ∃ s, (create_mcp_server ⟨"/h", "linux", none, .ok, .ok, none, true, true, false, none, none⟩
      ⟨["/tmp"], [], "/cw", true⟩ "p" "/tmp" "d").outcome = .ret s :=
  claim_c2_caught_failures _ _ "p" "/tmp" "d" rfl rfl rfl rfl

/-- C3 counterexample: a concrete run in which the log accumulated so far
is non-empty (the project location was created, the probe succeeded and
the project directory was created, so the log holds those entries) and
the `uv init` step then fails.  The returned Failure is the bare string
`initFailMsg`, which does not contain the accumulated entry about the
created directory: failure results do not carry the log, contradicting
the claim. -/
theorem claim_c3_counterexample :
    (create_mcp_server ⟨"/h", "linux", none, .ok, .ok, none, false, true, true, none, none⟩
      ⟨[], [], "/cw", true⟩ "p" "/tmp" "d").outcome = .ret initFailMsg
    ∧ ¬ strContains initFailMsg (logCreatedDir "/tmp") :=
  ⟨by decide, by decide⟩

/-- C3 (corrected): every Failure outcome returned by `create_mcp_server`
is one of the seven fixed messages of the source (parameterised only by
the location path, the underlying error text, or the project-directory
path).  None of them incorporates the accumulated step log: the log is
surfaced only in the success report, and is discarded on every failure
exit. -/
theorem claim_c3_failure_message_only (env : Env) (w : World) (pn pl d s : String)
    (h : (create_mcp_server env w pn pl d).outcome = .ret s)
    (hf : isFail s = true) :
    (∃ e, s = mkdirsFailMsg (expanduser env.home pl) e)
    ∨ s = manualInstallMsg
    ∨ s = installFailMsg
    ∨ s = existsMsg (pathJoin (expanduser env.home pl) pn)
    ∨ s = initFailMsg ∨ s = venvFailMsg ∨ s = addFailMsg := by
  by_cases hm : expanduser env.home pl ∈ w.dirs
  · cases huv : w.uvOk with
    | false =>
      have heq : create_mcp_server env w pn pl d = installUv env w [.uvVersion] := by
        simp [create_mcp_server, hm, checkUv, huv]
      rw [heq] at h
      rcases installUv_ret _ _ _ s h with h' | h'
      · exact Or.inr (Or.inr (Or.inl h'))
      · exact Or.inr (Or.inl h')
    | true =>
      have heq : create_mcp_server env w pn pl d =
          scaffold env w w.cwd pn d (expanduser env.home pl)
            ([] ++ [logUvInstalled]) [.uvVersion] := by
        simp [create_mcp_server, hm, checkUv, huv]
      rw [heq] at h
      rcases scaffold_outcome_cases _ _ _ _ _ _ _ _ _ h with h' | h' | h' | h' | h'
      · exact Or.inr (Or.inr (Or.inr (Or.inl h')))
      · exact Or.inr (Or.inr (Or.inr (Or.inr (Or.inl h'))))
      · exact Or.inr (Or.inr (Or.inr (Or.inr (Or.inr (Or.inl h')))))
      · exact Or.inr (Or.inr (Or.inr (Or.inr (Or.inr (Or.inr h')))))
      · rw [h', isFail_result_message] at hf; exact absurd hf (by simp)
  · cases hmk : env.makedirsErr with
    | some e =>
      have heq : create_mcp_server env w pn pl d =
          ⟨.ret (mkdirsFailMsg (expanduser env.home pl) e), w, []⟩ := by
        simp [create_mcp_server, hm, hmk]
      rw [heq] at h
      have : mkdirsFailMsg (expanduser env.home pl) e = s := by simpa using h
      exact Or.inl ⟨e, this.symm⟩
    | none =>
      cases huv : w.uvOk with
      | false =>
        have heq : create_mcp_server env w pn pl d =
            installUv env { w with dirs := expanduser env.home pl :: w.dirs } [.uvVersion] := by
          simp [create_mcp_server, hm, hmk, checkUv, huv]
        rw [heq] at h
        rcases installUv_ret _ _ _ s h with h' | h'
        · exact Or.inr (Or.inr (Or.inl h'))
        · exact Or.inr (Or.inl h')
      | true =>
        have heq : create_mcp_server env w pn pl d =
            scaffold env { w with dirs := expanduser env.home pl :: w.dirs } w.cwd pn d
              (expanduser env.home pl)
              ([logCreatedDir (expanduser env.home pl)] ++ [logUvInstalled]) [.uvVersion] := by
          simp [create_mcp_server, hm, hmk, checkUv, huv]
        rw [heq] at h
        rcases scaffold_outcome_cases _ _ _ _ _ _ _ _ _ h with h' | h' | h' | h' | h'
        · exact Or.inr (Or.inr (Or.inr (Or.inl h')))
        · exact Or.inr (Or.inr (Or.inr (Or.inr (Or.inl h'))))
        · exact Or.inr (Or.inr (Or.inr (Or.inr (Or.inr (Or.inl h')))))
        · exact Or.inr (Or.inr (Or.inr (Or.inr (Or.inr (Or.inr h')))))
        · rw [h', isFail_result_message] at hf; exact absurd hf (by simp)

/-- C3 witness: the enumeration applied to a concrete failing run whose
returned string is the bare `uv init` failure message. -/
theorem claim_c3_failure_message_only_witness :
    (∃ e, initFailMsg = mkdirsFailMsg "/tmp" e)
    ∨ initFailMsg = manualInstallMsg
    ∨ initFailMsg = installFailMsg
    ∨ initFailMsg = existsMsg (pathJoin "/tmp" "p")
    ∨ initFailMsg = initFailMsg ∨ initFailMsg = venvFailMsg ∨ initFailMsg = addFailMsg :=
  claim_c3_failure_message_only
    ⟨"/h", "linux", none, .ok, .ok, none, false, true, true, none, none⟩
    ⟨[], [], "/cw", true⟩ "p" "/tmp" "d" initFailMsg (by decide) (by decide)
